import Mathlib

/-
Verification of the early boot-stage entry point of the AMD Inagua
mainboard (src/mainboard/amd/inagua/romstage.c).

The function `cache_as_ram_main` is pure orchestration glue: it issues a
fixed, linear sequence of calls to opaque vendor routines, annotated with
diagnostic checkpoint (POST) codes, gated by two conditions (cold reset
path, boot CPU).  We embed it shallowly as a function producing the list
of externally observable events (checkpoint emissions and external calls,
with their arguments), together with an outcome recording whether the C
function returns to its caller.
-/

namespace Inagua

/-- Externally observable events of the romstage: each constructor is one
checkpoint emission or one external call made by `cache_as_ram_main`,
carrying the arguments the source passes. -/
inductive Event where
  | amd_initmmio : Event
  | post_code : Nat → Event
  | sb_Poweron_Init : Event
  | kbc1100_early_init : Nat → Event
  | kbc1100_early_serial : Nat → Nat → Event
  | console_init : Event
  | report_bist_failure : Nat → Event
  | printk_family_model : Nat → Event
  | printk_cpu_init_detectedx : Nat → Event
  | agesawrapper_amdinitreset : Event
  | agesawrapper_amdinitearly : Event
  | agesawrapper_amdinitpost : Event
  | agesawrapper_amdinitenv : Event
  | amd_initenv : Event
  | copy_and_run : Event
  | printk_copy_and_run_returned : Event
deriving DecidableEq, Repr

/-- Modelled from the spec: `PNP_DEV(PORT, FUNC)` (device/pnp_def.h, not
under src/) composes a super-I/O device address from an I/O port and a
logical device number, `(PORT << 8) | FUNC`. -/
def PNP_DEV (port fn : Nat) : Nat := port * 256 + fn

/-- Modelled from the spec: the logical device number of the first serial
port of the SMSC super-I/O (header superio/smsc/kbc1100/kbc1100.h is not
under src/); the concrete value is irrelevant to the claims. -/
def SMSCSUPERIO_SP1 : Nat := 4

/-- Modelled from the spec: the build-time base I/O port of the first
serial console (a Kconfig constant, not under src/); the concrete value
is irrelevant to the claims. -/
def CONFIG_TTYS0_BASE : Nat := 0x3f8

/-- Source: `#define SERIAL_DEV PNP_DEV(0x2e, SMSCSUPERIO_SP1)`. -/
def SERIAL_DEV : Nat := PNP_DEV 0x2e SMSCSUPERIO_SP1

/-- Modelled from the spec: the execution environment of one invocation.
`boot_cpu` is the value of the external predicate `boot_cpu()`;
`cpuid_eax1` is the value the external read `cpuid_eax(1)` returns;
`copy_and_run_returns` records whether the control transfer
`copy_and_run()` (arch/stages, not under src/) violates its contract and
returns instead of transferring control. -/
structure Env where
  boot_cpu : Bool
  cpuid_eax1 : Nat
  copy_and_run_returns : Bool
deriving DecidableEq, Repr

/-- Whether an invocation of `cache_as_ram_main` returns to its caller
(`returns`) or never does (`noReturn`: control was transferred onward, or
the environment halted inside an external call). -/
inductive Outcome where
  | returns : Outcome
  | noReturn : Outcome
deriving DecidableEq, Repr

/-- Shallow embedding of `cache_as_ram_main(bist, cpu_init_detectedx)`
from src/mainboard/amd/inagua/romstage.c, line by line.  The result is
the sequence of observable events together with the outcome.
`report_bist_failure` is modelled from the spec as halting on a nonzero
argument (its body, include/cpu/x86/bist.h, is not under src/): on
`bist ≠ 0` the trace ends at that call and the function never returns. -/
def cache_as_ram_main (bist cpu_init_detectedx : Nat) (env : Env) :
    List Event × Outcome :=
  -- Must come first to enable PCI MMCONF.
  let t0 : List Event := [Event.amd_initmmio]
  -- if (!cpu_init_detectedx && boot_cpu()) { ... }
  let t1 : List Event := t0 ++
    (if cpu_init_detectedx == 0 && env.boot_cpu then
      [Event.post_code 0x30, Event.sb_Poweron_Init,
       Event.post_code 0x31, Event.kbc1100_early_init 0x2e,
       Event.kbc1100_early_serial SERIAL_DEV CONFIG_TTYS0_BASE,
       Event.console_init]
    else [])
  -- Halt if there was a built in self test failure.
  let t2 : List Event := t1 ++
    [Event.post_code 0x34, Event.report_bist_failure bist]
  if bist ≠ 0 then (t2, Outcome.noReturn)
  else
    let t3 : List Event := t2 ++
      [Event.printk_family_model env.cpuid_eax1,
       Event.printk_cpu_init_detectedx cpu_init_detectedx,
       Event.post_code 0x37, Event.agesawrapper_amdinitreset,
       Event.post_code 0x39, Event.agesawrapper_amdinitearly,
       Event.post_code 0x40, Event.agesawrapper_amdinitpost,
       Event.post_code 0x41, Event.agesawrapper_amdinitenv,
       Event.amd_initenv,
       Event.post_code 0x50, Event.copy_and_run]
    if env.copy_and_run_returns then
      (t3 ++ [Event.printk_copy_and_run_returned, Event.post_code 0x54],
       Outcome.returns)
    else
      (t3, Outcome.noReturn)

/-- Event trace of one invocation. -/
def carTrace (bist cpu_init_detectedx : Nat) (env : Env) : List Event :=
  (cache_as_ram_main bist cpu_init_detectedx env).1

/-- Outcome of one invocation. -/
def carOutcome (bist cpu_init_detectedx : Nat) (env : Env) : Outcome :=
  (cache_as_ram_main bist cpu_init_detectedx env).2

/-- Checkpoint codes emitted along a trace, in order. -/
def checkpoints (t : List Event) : List Nat :=
  t.filterMap fun e =>
    match e with
    | Event.post_code c => some c
    | _ => none

/-- Predicate selecting the events that are not the diagnostic logging of
step 4 (the two printk calls printing the CPU family/model and the
`cpu_init_detectedx` value). -/
def nonDiag : Event → Bool := fun e =>
  match e with
  | Event.printk_family_model _ => false
  | Event.printk_cpu_init_detectedx _ => false
  | _ => true

/-- Truncation of a trace at the control transfer: everything up to and
including the first `copy_and_run` event, or the whole trace if the
control transfer is never reached. -/
def upToTransfer : List Event → List Event
  | [] => []
  | e :: es =>
      if e = Event.copy_and_run then [e] else e :: upToTransfer es

example : carTrace 0 0 (Env.mk true 7 false) =
    [Event.amd_initmmio, Event.post_code 0x30, Event.sb_Poweron_Init,
     Event.post_code 0x31, Event.kbc1100_early_init 0x2e,
     Event.kbc1100_early_serial SERIAL_DEV CONFIG_TTYS0_BASE,
     Event.console_init, Event.post_code 0x34,
     Event.report_bist_failure 0, Event.printk_family_model 7,
     Event.printk_cpu_init_detectedx 0,
     Event.post_code 0x37, Event.agesawrapper_amdinitreset,
     Event.post_code 0x39, Event.agesawrapper_amdinitearly,
     Event.post_code 0x40, Event.agesawrapper_amdinitpost,
     Event.post_code 0x41, Event.agesawrapper_amdinitenv,
     Event.amd_initenv, Event.post_code 0x50, Event.copy_and_run] := by
  decide

example : carTrace 5 1 (Env.mk false 7 false) =
    [Event.amd_initmmio, Event.post_code 0x34,
     Event.report_bist_failure 5] := by
  decide

example : carOutcome 0 0 (Env.mk true 7 true) = Outcome.returns := by
  decide

/-- C6: in every invocation of `cache_as_ram_main`, regardless of bist
value, reset path, or processor role, the memory-mapped-I/O configuration
call `amd_initmmio` is the first operation performed, before any
checkpoint emission, gating test, or other external call. -/
theorem C6_initmmio_first (bist cpu_init_detectedx : Nat) (env : Env) :
    (carTrace bist cpu_init_detectedx env).head? = some Event.amd_initmmio := by
  unfold carTrace cache_as_ram_main
  by_cases hb : bist = 0 <;> by_cases hr : env.copy_and_run_returns <;>
    simp [hb, hr]

/-- C1: with a cold reset path (`cpu_init_detectedx = 0`) and the primary
role (`boot_cpu()` true), the gated block (`sb_Poweron_Init`, kbc1100
early device init and serial setup, `console_init`, with its checkpoints
0x30 and 0x31) executes exactly once, and `amd_initmmio` precedes it. -/
theorem C1_cold_primary_gated_block_once (bist cpu_init_detectedx : Nat)
    (env : Env) (hcold : cpu_init_detectedx = 0)
    (hbsp : env.boot_cpu = true) :
    (carTrace bist cpu_init_detectedx env).take 7 =
      [Event.amd_initmmio, Event.post_code 0x30, Event.sb_Poweron_Init,
       Event.post_code 0x31, Event.kbc1100_early_init 0x2e,
       Event.kbc1100_early_serial SERIAL_DEV CONFIG_TTYS0_BASE,
       Event.console_init] ∧
    (carTrace bist cpu_init_detectedx env).count Event.sb_Poweron_Init = 1 ∧
    (carTrace bist cpu_init_detectedx env).count
      (Event.kbc1100_early_init 0x2e) = 1 ∧
    (carTrace bist cpu_init_detectedx env).count
      (Event.kbc1100_early_serial SERIAL_DEV CONFIG_TTYS0_BASE) = 1 ∧
    (carTrace bist cpu_init_detectedx env).count Event.console_init = 1 ∧
    (carTrace bist cpu_init_detectedx env).count (Event.post_code 0x30) = 1 ∧
    (carTrace bist cpu_init_detectedx env).count (Event.post_code 0x31) = 1 := by
  subst hcold
  unfold carTrace cache_as_ram_main
  by_cases hb : bist = 0 <;> by_cases hr : env.copy_and_run_returns <;>
    simp [hb, hr, hbsp, List.count_cons, SERIAL_DEV, PNP_DEV,
      SMSCSUPERIO_SP1, CONFIG_TTYS0_BASE]

/-- C1 witness: a concrete cold-path primary invocation. -/
theorem C1_witness :
    (0 : Nat) = 0 ∧ (Env.mk true 7 false).boot_cpu = true ∧
    ((carTrace 0 0 (Env.mk true 7 false)).take 7 =
      [Event.amd_initmmio, Event.post_code 0x30, Event.sb_Poweron_Init,
       Event.post_code 0x31, Event.kbc1100_early_init 0x2e,
       Event.kbc1100_early_serial SERIAL_DEV CONFIG_TTYS0_BASE,
       Event.console_init] ∧
    (carTrace 0 0 (Env.mk true 7 false)).count Event.sb_Poweron_Init = 1 ∧
    (carTrace 0 0 (Env.mk true 7 false)).count
      (Event.kbc1100_early_init 0x2e) = 1 ∧
    (carTrace 0 0 (Env.mk true 7 false)).count
      (Event.kbc1100_early_serial SERIAL_DEV CONFIG_TTYS0_BASE) = 1 ∧
    (carTrace 0 0 (Env.mk true 7 false)).count Event.console_init = 1 ∧
    (carTrace 0 0 (Env.mk true 7 false)).count (Event.post_code 0x30) = 1 ∧
    (carTrace 0 0 (Env.mk true 7 false)).count (Event.post_code 0x31) = 1) :=
  ⟨rfl, rfl, C1_cold_primary_gated_block_once 0 0 (Env.mk true 7 false) rfl rfl⟩

/-- C2: with a warm reset path (`cpu_init_detectedx ≠ 0`) or a secondary
role (`boot_cpu()` false), none of the gated-block operations and neither
of checkpoints 0x30 and 0x31 are ever executed or emitted. -/
theorem C2_warm_or_secondary_skips_gated_block (bist cpu_init_detectedx : Nat)
    (env : Env)
    (h : cpu_init_detectedx ≠ 0 ∨ env.boot_cpu = false) :
    Event.sb_Poweron_Init ∉ carTrace bist cpu_init_detectedx env ∧
    (∀ p, Event.kbc1100_early_init p ∉ carTrace bist cpu_init_detectedx env) ∧
    (∀ d b, Event.kbc1100_early_serial d b ∉
        carTrace bist cpu_init_detectedx env) ∧
    Event.console_init ∉ carTrace bist cpu_init_detectedx env ∧
    Event.post_code 0x30 ∉ carTrace bist cpu_init_detectedx env ∧
    Event.post_code 0x31 ∉ carTrace bist cpu_init_detectedx env := by
  unfold carTrace cache_as_ram_main
  have hgate : (cpu_init_detectedx == 0 && env.boot_cpu) = false := by
    rcases h with h | h
    · simp [h]
    · simp [h]
  by_cases hb : bist = 0 <;> by_cases hr : env.copy_and_run_returns <;>
    simp [hb, hr, hgate]

/-- C2 witness: a concrete warm-path invocation. -/
theorem C2_witness :
    ((1 : Nat) ≠ 0 ∨ (Env.mk true 7 false).boot_cpu = false) ∧
    (Event.sb_Poweron_Init ∉ carTrace 0 1 (Env.mk true 7 false) ∧
    (∀ p, Event.kbc1100_early_init p ∉ carTrace 0 1 (Env.mk true 7 false)) ∧
    (∀ d b, Event.kbc1100_early_serial d b ∉
        carTrace 0 1 (Env.mk true 7 false)) ∧
    Event.console_init ∉ carTrace 0 1 (Env.mk true 7 false) ∧
    Event.post_code 0x30 ∉ carTrace 0 1 (Env.mk true 7 false) ∧
    Event.post_code 0x31 ∉ carTrace 0 1 (Env.mk true 7 false)) :=
  ⟨Or.inl (by decide),
   C2_warm_or_secondary_skips_gated_block 0 1 (Env.mk true 7 false)
     (Or.inl (by decide))⟩

/-- C3: in every invocation that proceeds past the BIST check
(`bist = 0`), the four vendor phase-init calls execute in the fixed
order amdinitreset, amdinitearly, amdinitpost, amdinitenv, each exactly
once, each preceded by its checkpoint emission, followed by the
environment finalize step `amd_initenv`. -/
theorem C3_vendor_phase_sequence (bist cpu_init_detectedx : Nat) (env : Env)
    (h : bist = 0) :
    (∃ pre rest, carTrace bist cpu_init_detectedx env = pre ++
      [Event.post_code 0x37, Event.agesawrapper_amdinitreset,
       Event.post_code 0x39, Event.agesawrapper_amdinitearly,
       Event.post_code 0x40, Event.agesawrapper_amdinitpost,
       Event.post_code 0x41, Event.agesawrapper_amdinitenv,
       Event.amd_initenv] ++ rest) ∧
    (carTrace bist cpu_init_detectedx env).count
      Event.agesawrapper_amdinitreset = 1 ∧
    (carTrace bist cpu_init_detectedx env).count
      Event.agesawrapper_amdinitearly = 1 ∧
    (carTrace bist cpu_init_detectedx env).count
      Event.agesawrapper_amdinitpost = 1 ∧
    (carTrace bist cpu_init_detectedx env).count
      Event.agesawrapper_amdinitenv = 1 ∧
    (carTrace bist cpu_init_detectedx env).count Event.amd_initenv = 1 := by
  subst h
  unfold carTrace cache_as_ram_main
  by_cases hg : (cpu_init_detectedx == 0 && env.boot_cpu) = true <;>
    by_cases hr : env.copy_and_run_returns = true
  · exact ⟨⟨[Event.amd_initmmio, Event.post_code 0x30, Event.sb_Poweron_Init,
      Event.post_code 0x31, Event.kbc1100_early_init 0x2e,
      Event.kbc1100_early_serial SERIAL_DEV CONFIG_TTYS0_BASE,
      Event.console_init, Event.post_code 0x34,
      Event.report_bist_failure 0, Event.printk_family_model env.cpuid_eax1,
      Event.printk_cpu_init_detectedx cpu_init_detectedx],
      [Event.post_code 0x50, Event.copy_and_run,
       Event.printk_copy_and_run_returned, Event.post_code 0x54],
      by simp [hg, hr]⟩, by simp [hg, hr, List.count_cons]⟩
  · exact ⟨⟨[Event.amd_initmmio, Event.post_code 0x30, Event.sb_Poweron_Init,
      Event.post_code 0x31, Event.kbc1100_early_init 0x2e,
      Event.kbc1100_early_serial SERIAL_DEV CONFIG_TTYS0_BASE,
      Event.console_init, Event.post_code 0x34,
      Event.report_bist_failure 0, Event.printk_family_model env.cpuid_eax1,
      Event.printk_cpu_init_detectedx cpu_init_detectedx],
      [Event.post_code 0x50, Event.copy_and_run],
      by simp [hg, hr]⟩, by simp [hg, hr, List.count_cons]⟩
  · exact ⟨⟨[Event.amd_initmmio, Event.post_code 0x34,
      Event.report_bist_failure 0, Event.printk_family_model env.cpuid_eax1,
      Event.printk_cpu_init_detectedx cpu_init_detectedx],
      [Event.post_code 0x50, Event.copy_and_run,
       Event.printk_copy_and_run_returned, Event.post_code 0x54],
      by simp [hg, hr]⟩, by simp [hg, hr, List.count_cons]⟩
  · exact ⟨⟨[Event.amd_initmmio, Event.post_code 0x34,
      Event.report_bist_failure 0, Event.printk_family_model env.cpuid_eax1,
      Event.printk_cpu_init_detectedx cpu_init_detectedx],
      [Event.post_code 0x50, Event.copy_and_run],
      by simp [hg, hr]⟩, by simp [hg, hr, List.count_cons]⟩

/-- C3 witness: a concrete invocation passing the BIST check. -/
theorem C3_witness :
    (0 : Nat) = 0 ∧
    ((∃ pre rest, carTrace 0 0 (Env.mk true 7 false) = pre ++
      [Event.post_code 0x37, Event.agesawrapper_amdinitreset,
       Event.post_code 0x39, Event.agesawrapper_amdinitearly,
       Event.post_code 0x40, Event.agesawrapper_amdinitpost,
       Event.post_code 0x41, Event.agesawrapper_amdinitenv,
       Event.amd_initenv] ++ rest) ∧
    (carTrace 0 0 (Env.mk true 7 false)).count
      Event.agesawrapper_amdinitreset = 1 ∧
    (carTrace 0 0 (Env.mk true 7 false)).count
      Event.agesawrapper_amdinitearly = 1 ∧
    (carTrace 0 0 (Env.mk true 7 false)).count
      Event.agesawrapper_amdinitpost = 1 ∧
    (carTrace 0 0 (Env.mk true 7 false)).count
      Event.agesawrapper_amdinitenv = 1 ∧
    (carTrace 0 0 (Env.mk true 7 false)).count Event.amd_initenv = 1) :=
  ⟨rfl, C3_vendor_phase_sequence 0 0 (Env.mk true 7 false) rfl⟩

/-- C4: with `bist ≠ 0`, modelling `report_bist_failure` as halting on a
nonzero argument, no step after the self-test-failure report executes:
the trace ends at the report, the invocation never returns, and none of
the vendor phase inits, the finalize step, checkpoints
0x37/0x39/0x40/0x41/0x50, or the control transfer are reached. -/
theorem C4_bist_failure_halts (bist cpu_init_detectedx : Nat) (env : Env)
    (h : bist ≠ 0) :
    (carTrace bist cpu_init_detectedx env).getLast? =
      some (Event.report_bist_failure bist) ∧
    carOutcome bist cpu_init_detectedx env = Outcome.noReturn ∧
    Event.agesawrapper_amdinitreset ∉ carTrace bist cpu_init_detectedx env ∧
    Event.agesawrapper_amdinitearly ∉ carTrace bist cpu_init_detectedx env ∧
    Event.agesawrapper_amdinitpost ∉ carTrace bist cpu_init_detectedx env ∧
    Event.agesawrapper_amdinitenv ∉ carTrace bist cpu_init_detectedx env ∧
    Event.amd_initenv ∉ carTrace bist cpu_init_detectedx env ∧
    Event.post_code 0x37 ∉ carTrace bist cpu_init_detectedx env ∧
    Event.post_code 0x39 ∉ carTrace bist cpu_init_detectedx env ∧
    Event.post_code 0x40 ∉ carTrace bist cpu_init_detectedx env ∧
    Event.post_code 0x41 ∉ carTrace bist cpu_init_detectedx env ∧
    Event.post_code 0x50 ∉ carTrace bist cpu_init_detectedx env ∧
    Event.copy_and_run ∉ carTrace bist cpu_init_detectedx env := by
  unfold carTrace carOutcome cache_as_ram_main
  by_cases hg : (cpu_init_detectedx == 0 && env.boot_cpu) = true <;>
    simp [h, hg]

/-- C4 witness: a concrete invocation with a failing BIST. -/
theorem C4_witness :
    (5 : Nat) ≠ 0 ∧
    ((carTrace 5 0 (Env.mk true 7 false)).getLast? =
      some (Event.report_bist_failure 5) ∧
    carOutcome 5 0 (Env.mk true 7 false) = Outcome.noReturn ∧
    Event.agesawrapper_amdinitreset ∉ carTrace 5 0 (Env.mk true 7 false) ∧
    Event.agesawrapper_amdinitearly ∉ carTrace 5 0 (Env.mk true 7 false) ∧
    Event.agesawrapper_amdinitpost ∉ carTrace 5 0 (Env.mk true 7 false) ∧
    Event.agesawrapper_amdinitenv ∉ carTrace 5 0 (Env.mk true 7 false) ∧
    Event.amd_initenv ∉ carTrace 5 0 (Env.mk true 7 false) ∧
    Event.post_code 0x37 ∉ carTrace 5 0 (Env.mk true 7 false) ∧
    Event.post_code 0x39 ∉ carTrace 5 0 (Env.mk true 7 false) ∧
    Event.post_code 0x40 ∉ carTrace 5 0 (Env.mk true 7 false) ∧
    Event.post_code 0x41 ∉ carTrace 5 0 (Env.mk true 7 false) ∧
    Event.post_code 0x50 ∉ carTrace 5 0 (Env.mk true 7 false) ∧
    Event.copy_and_run ∉ carTrace 5 0 (Env.mk true 7 false)) :=
  ⟨by decide, C4_bist_failure_halts 5 0 (Env.mk true 7 false) (by decide)⟩

/-- C5: in every invocation in which the control transfer does not return
(a successful run), the sequence of emitted checkpoint codes is strictly
increasing, on both the gated (cold/primary) and ungated
(warm/secondary) paths. -/
theorem C5_checkpoints_strictly_increasing (bist cpu_init_detectedx : Nat)
    (env : Env) (h : env.copy_and_run_returns = false) :
    List.Chain' (· < ·) (checkpoints (carTrace bist cpu_init_detectedx env)) := by
  unfold carTrace cache_as_ram_main
  by_cases hg : (cpu_init_detectedx == 0 && env.boot_cpu) = true <;>
    by_cases hb : bist = 0 <;> simp [h, hg, hb, checkpoints]

/-- C5 witness: a concrete successful cold-path run. -/
theorem C5_witness :
    (Env.mk true 7 false).copy_and_run_returns = false ∧
    List.Chain' (· < ·) (checkpoints (carTrace 0 0 (Env.mk true 7 false))) :=
  ⟨rfl, C5_checkpoints_strictly_increasing 0 0 (Env.mk true 7 false) rfl⟩

/-- C7: the terminal checkpoint 0x54 is emitted if and only if the
control transfer `copy_and_run` was reached and returned (protocol
violation), and in that case it is the last event: nothing further is
performed after its emission. -/
theorem C7_terminal_checkpoint_iff_transfer_returned
    (bist cpu_init_detectedx : Nat) (env : Env) :
    (Event.post_code 0x54 ∈ carTrace bist cpu_init_detectedx env ↔
      Event.copy_and_run ∈ carTrace bist cpu_init_detectedx env ∧
        env.copy_and_run_returns = true) ∧
    ((carTrace bist cpu_init_detectedx env).getLast? =
        some (Event.post_code 0x54) ↔
      Event.copy_and_run ∈ carTrace bist cpu_init_detectedx env ∧
        env.copy_and_run_returns = true) := by
  unfold carTrace cache_as_ram_main
  by_cases hg : (cpu_init_detectedx == 0 && env.boot_cpu) = true <;>
    by_cases hb : bist = 0 <;> by_cases hr : env.copy_and_run_returns = true <;>
      simp [hg, hb, hr]

/-- C8: `cache_as_ram_main` never returns on success (control is
transferred onward and the environment never hands it back, or it halts
inside an external call); it returns to its caller exactly when the
control transfer `copy_and_run` was reached and itself returned. -/
theorem C8_returns_only_on_failure (bist cpu_init_detectedx : Nat)
    (env : Env) :
    carOutcome bist cpu_init_detectedx env = Outcome.returns ↔
      Event.copy_and_run ∈ carTrace bist cpu_init_detectedx env ∧
        env.copy_and_run_returns = true := by
  unfold carTrace carOutcome cache_as_ram_main
  by_cases hg : (cpu_init_detectedx == 0 && env.boot_cpu) = true <;>
    by_cases hb : bist = 0 <;> by_cases hr : env.copy_and_run_returns = true <;>
      simp [hg, hb, hr]

/-- C9: the diagnostic logging step has no control effect: with the same
inputs and the same environment apart from the value the logging
observes via `cpuid_eax(1)`, the trace without the two diagnostic printk
events is identical, and so is the outcome. -/
theorem C9_logging_no_control_effect (bist cpu_init_detectedx v1 v2 : Nat)
    (b r : Bool) :
    (carTrace bist cpu_init_detectedx (Env.mk b v1 r)).filter nonDiag =
      (carTrace bist cpu_init_detectedx (Env.mk b v2 r)).filter nonDiag ∧
    carOutcome bist cpu_init_detectedx (Env.mk b v1 r) =
      carOutcome bist cpu_init_detectedx (Env.mk b v2 r) := by
  unfold carTrace carOutcome cache_as_ram_main
  by_cases hg : (cpu_init_detectedx == 0 && b) = true <;>
    by_cases hb : bist = 0 <;> by_cases hr : r = true <;>
      simp [hg, hb, hr, nonDiag]

/-- C10 counterexample: the emitted sequence of checkpoints and external
calls with their arguments is not a function of (bist,
cpu_init_detectedx, boot_cpu) alone.  Two invocations with identical
bist = 0, cpu_init_detectedx = 0 and boot_cpu() = true differ when the
observed `cpuid_eax(1)` value differs (the diagnostic printk carries it
as an argument), and differ again when `copy_and_run` returns in one
invocation and not in the other (the error printk and checkpoint 0x54
are emitted only then). -/
theorem C10_counterexample :
    carTrace 0 0 (Env.mk true 0 false) ≠ carTrace 0 0 (Env.mk true 1 false) ∧
    carTrace 0 0 (Env.mk true 0 true) ≠ carTrace 0 0 (Env.mk true 0 false) := by
  decide

/-- C10 (amended): excluding the diagnostic logging events and
truncating at the control transfer, the emitted sequence of checkpoint
codes and external calls (order and arguments included) is a
deterministic function of exactly bist, cpu_init_detectedx and the
boot_cpu() outcome. -/
theorem C10_amended_determinism (bist cpu_init_detectedx : Nat)
    (env1 env2 : Env) (h : env1.boot_cpu = env2.boot_cpu) :
    upToTransfer ((carTrace bist cpu_init_detectedx env1).filter nonDiag) =
      upToTransfer ((carTrace bist cpu_init_detectedx env2).filter nonDiag) := by
  unfold carTrace cache_as_ram_main
  by_cases hg : (cpu_init_detectedx == 0 && env1.boot_cpu) = true <;>
    by_cases hb : bist = 0 <;>
      by_cases hr1 : env1.copy_and_run_returns = true <;>
        by_cases hr2 : env2.copy_and_run_returns = true <;>
          simp [← h, hg, hb, hr1, hr2, nonDiag, upToTransfer]

/-- C10 witness: the amended determinism theorem at concrete
environments differing in the observed CPUID value and in whether the
control transfer returns. -/
theorem C10_witness :
    (Env.mk true 7 true).boot_cpu = (Env.mk true 8 false).boot_cpu ∧
    upToTransfer ((carTrace 0 0 (Env.mk true 7 true)).filter nonDiag) =
      upToTransfer ((carTrace 0 0 (Env.mk true 8 false)).filter nonDiag) :=
  ⟨rfl, C10_amended_determinism 0 0 (Env.mk true 7 true) (Env.mk true 8 false) rfl⟩

end Inagua
